import Mathlib

/-!
Shallow embedding of `wangle/acceptor/FizzAcceptorHandshakeHelper.cpp`
(the dual-path TLS handshake negotiation orchestrator).

The orchestrator is event-driven: the external Fizz (modern) engine and the
classic OpenSSL engine call back into the helper.  We embed the helper's
member state as an explicit `HelperState` record, and each handler as a pure
function `HelperState → ... → HelperState × List Act`, where `Act`
records the externally observable calls the handler makes (logging-observer
notifications, socket construction / configuration, and the completion
callback's `connectionReady` / `connectionError`), in program order.

Timestamps (`steady_clock` instants) are modelled as `Int` milliseconds, so
`duration_cast<milliseconds>(now - acceptTime_)` is plain subtraction.
Byte buffers (`folly::IOBuf`) are `List Nat`.
-/

/-- An OS-level socket descriptor value. -/
abbrev Fd := Nat

/-- The state of the `AsyncFizzServer` transport (`transport_`) visible to the
helper: the event base and descriptor it runs on (inherited from the accepted
socket via `createFizzServer`, which wraps it in a fresh `AsyncSocket` on the
same event base and descriptor), plus the handshake-determined observables the
handlers read (`getApplicationProtocol`, `getRawBytesReceived`,
`getRawBytesWritten`, and the `clientSni` from `handshakeLogging`). -/
structure FizzTransport where
  evb : Nat
  fd : Fd
  appProtocol : String
  rawBytesReceived : Nat
  rawBytesWritten : Nat
  clientSni : Option String
deriving Repr, DecidableEq

/-- `AsyncFizzBase::getSecurityProtocol()` (external fizz library) reports the
constant protocol name of the modern engine. -/
def fizzSecurityProtocol : String := "Fizz"

/-- `AsyncFizzServer::getSecurityProtocol()` on the modern transport. -/
def FizzTransport.getSecurityProtocol (_t : FizzTransport) : String := fizzSecurityProtocol

/-- `folly::AsyncSSLSocket::getSecurityProtocol()` (external folly library)
reports the constant protocol name of the classic TLS engine. -/
def classicSecurityProtocol : String := "TLS"

/-- The state of the classic `folly::AsyncSSLSocket` (`sslSocket_`) visible to
the helper: construction parameters (SSL context, event base, descriptor),
the pre-received data installed by `setPreReceivedData`, the two flags the
fallback path sets, and the handshake-determined observables
(`getApplicationProtocol`, bytes newly read from the wire,
`getRawBytesWritten`). -/
structure SSLSocket where
  sslContext : Option Nat
  evb : Nat
  fd : Fd
  preReceivedData : List Nat
  clientHelloParsing : Bool
  cacheAddrOnFailure : Bool
  appProtocol : String
  newBytesReceived : Nat
  rawBytesWritten : Nat
deriving Repr, DecidableEq

/-- `folly::AsyncSSLSocket::getRawBytesReceived()` (external folly library):
bytes injected via `setPreReceivedData` are consumed by the socket before any
new wire read and are counted in its received-byte total, as the spec's
Scenario D describes. -/
def SSLSocket.getRawBytesReceived (s : SSLSocket) : Nat :=
  s.preReceivedData.length + s.newBytesReceived

/-- `wangle::TransportInfo`, restricted to the fields this file touches. -/
structure TransportInfo where
  acceptTime : Option Int := none
  secure : Bool := false
  securityType : Option String := none
  sslSetupTime : Option Int := none
  negotiatedTokenBindingKeyParameters : Option Nat := none
  sslServerName : Option String := none
deriving Repr, DecidableEq

/-- The classified error handed to `connectionError`: either a
`FizzHandshakeException` (modern phase) or an `SSLException` (classic phase),
each constructed from `(sslError_, elapsedTime, bytesReceived)` exactly as in
the source. -/
inductive HandshakeException where
  | fizzHandshakeException (sslError : Nat) (elapsedMs : Int) (bytesReceived : Nat)
  | sslException (sslError : Nat) (elapsedMs : Int) (bytesReceived : Nat)
deriving Repr, DecidableEq

/-- `SecureTransportType::TLS`, the transport type both success paths pass. -/
def SecureTransportType_TLS : String := "TLS"

/-- `SSLErrorEnum::NO_ERROR`. -/
def NO_ERROR : Nat := 0

/-- The externally observable calls a handler makes, in program order. -/
inductive Act where
  | fizzAccept
  | logFizzHandshakeSuccess
  | logFizzHandshakeError
  | detachNetworkSocket (fd : Fd)
  | createdSSLSocket (sslContext : Option Nat) (evb : Nat) (fd : Fd)
  | setPreReceivedData (data : List Nat)
  | enableClientHelloParsing
  | forceCacheAddrOnFailure (b : Bool)
  | sslAccept
  | connectionReady (appProtocol : String) (secureTransportType : String) (sslErr : Nat)
  | connectionError (ex : HandshakeException) (sslErr : Nat)
deriving Repr, DecidableEq

/-- The member state of `FizzAcceptorHandshakeHelper`.
`extensionNegotiatedKeyParam = some v` models `extension_` being allocated
with `v = extension_->getNegotiatedKeyParam()`. -/
structure HelperState where
  callbackSet : Bool
  loggingCallback : Bool
  tokenBindingContext : Bool
  extensionNegotiatedKeyParam : Option (Option Nat)
  sslContext : Option Nat
  transport : Option FizzTransport
  sslSocket : Option SSLSocket
  acceptTime : Int
  tinfo : TransportInfo
  sslError : Nat
deriving Repr, DecidableEq

/-- The raw accepted `folly::AsyncSSLSocket` handed to `start`. -/
structure AcceptedSocket where
  sslContext : Nat
  evb : Nat
  fd : Fd
deriving Repr, DecidableEq

/-- `FizzAcceptorHandshakeHelper::createFizzServer`: wraps the accepted socket
into a fresh `AsyncSocket` (same event base, same descriptor) and builds the
`AsyncFizzServer` on it.  Handshake observables start empty. -/
def createFizzServer (sock : AcceptedSocket) : FizzTransport :=
  { evb := sock.evb
    fd := sock.fd
    appProtocol := ""
    rawBytesReceived := 0
    rawBytesWritten := 0
    clientSni := none }

/-- `FizzAcceptorHandshakeHelper::start`: stores the callback, captures the
SSL context from the accepted socket, allocates the token-binding extension
when a token-binding context is configured, builds the fizz transport from the
socket and starts the fizz handshake (`transport_->accept(this)`). -/
def start (st : HelperState) (sock : AcceptedSocket) : HelperState × List Act :=
  let st1 := { st with callbackSet := true, sslContext := some sock.sslContext }
  let st2 :=
    if st1.tokenBindingContext then
      { st1 with extensionNegotiatedKeyParam := some none }
    else st1
  ({ st2 with transport := some (createFizzServer sock) }, [Act.fizzAccept])

/-- `FizzAcceptorHandshakeHelper::fizzHandshakeSuccess`: notifies the logging
observer when present, fills `tinfo_` (acceptTime, secure, securityType,
sslSetupTime = now − acceptTime_, the negotiated token-binding key parameter
truncated to `uint8_t` when present, and the client SNI when present), then
hands the fizz transport to `callback_->connectionReady`. -/
def fizzHandshakeSuccess (st : HelperState) (now : Int) : HelperState × List Act :=
  match st.transport with
  | none => (st, [])
  | some t =>
    let logActs := if st.loggingCallback then [Act.logFizzHandshakeSuccess] else []
    let tinfo1 := { st.tinfo with
        acceptTime := some st.acceptTime
        secure := true
        securityType := some t.getSecurityProtocol
        sslSetupTime := some (now - st.acceptTime) }
    let tinfo2 :=
      match st.extensionNegotiatedKeyParam with
      | some (some p) => { tinfo1 with negotiatedTokenBindingKeyParameters := some (p % 256) }
      | _ => tinfo1
    let tinfo3 :=
      match t.clientSni with
      | some sni => { tinfo2 with sslServerName := some sni }
      | none => tinfo2
    ({ st with tinfo := tinfo3, transport := none },
     logActs ++ [Act.connectionReady t.appProtocol SecureTransportType_TLS NO_ERROR])

/-- `FizzAcceptorHandshakeHelper::fizzHandshakeError`: notifies the logging
observer when present, builds a `FizzHandshakeException` from
`(sslError_, now − acceptTime_, transport->getRawBytesReceived())` and hands
it to `callback_->connectionError` together with the raw transport pointer. -/
def fizzHandshakeError (st : HelperState) (now : Int) : HelperState × List Act :=
  match st.transport with
  | none => (st, [])
  | some t =>
    let logActs := if st.loggingCallback then [Act.logFizzHandshakeError] else []
    let elapsed := now - st.acceptTime
    let ex := HandshakeException.fizzHandshakeException st.sslError elapsed t.rawBytesReceived
    (st, logActs ++ [Act.connectionError ex st.sslError])

/-- `FizzAcceptorHandshakeHelper::createSSLSocket`: builds the classic
`AsyncSSLSocket` from an SSL context, an event base and a raw descriptor. -/
def createSSLSocket (sslContext : Option Nat) (evb : Nat) (fd : Fd) : SSLSocket :=
  { sslContext := sslContext
    evb := evb
    fd := fd
    preReceivedData := []
    clientHelloParsing := false
    cacheAddrOnFailure := false
    appProtocol := ""
    newBytesReceived := 0
    rawBytesWritten := 0 }

/-- `FizzAcceptorHandshakeHelper::fizzHandshakeAttemptFallback`: takes the
event base and the raw descriptor out of the fizz transport
(`detachNetworkSocket().toFd()`), releases the fizz transport
(`transport_.reset()`), constructs the classic SSL socket from the captured
`sslContext_`, the same event base and the same descriptor, installs the
buffered client hello as pre-received data, enables client-hello parsing and
address caching, and starts the classic handshake (`sslAccept(this)`). -/
def fizzHandshakeAttemptFallback (st : HelperState) (clientHello : List Nat) :
    HelperState × List Act :=
  match st.transport with
  | none => (st, [])
  | some t =>
    let evb := t.evb
    let fd := t.fd
    let st1 := { st with transport := none }
    let sock0 := createSSLSocket st.sslContext evb fd
    let sock1 := { sock0 with preReceivedData := clientHello }
    let sock2 := { sock1 with clientHelloParsing := true }
    let sock3 := { sock2 with cacheAddrOnFailure := true }
    ({ st1 with sslSocket := some sock3 },
     [Act.detachNetworkSocket fd,
      Act.createdSSLSocket st.sslContext evb fd,
      Act.setPreReceivedData clientHello,
      Act.enableClientHelloParsing,
      Act.forceCacheAddrOnFailure true,
      Act.sslAccept])

/-- `folly::AsyncSSLSocket::getSecurityProtocol()` on the classic socket. -/
def SSLSocket.getSecurityProtocol (_s : SSLSocket) : String := classicSecurityProtocol

/-- Modelled from the spec: `wangle::SSLAcceptorHandshakeHelper::fillSSLTransportInfoFields`
lives in `SSLAcceptorHandshakeHelper.cpp`, which is not under `src/`.  Per the
spec, the classic-path success marks the transport secure with the classic TLS
security type (the protocol the classic engine reports). -/
def fillSSLTransportInfoFields (sock : SSLSocket) (tinfo : TransportInfo) : TransportInfo :=
  { tinfo with secure := true, securityType := some sock.getSecurityProtocol }

/-- `FizzAcceptorHandshakeHelper::handshakeSuc`: fills `tinfo_` (acceptTime,
sslSetupTime = now − acceptTime_ with the ORIGINAL acceptTime_, then the
SSL fields), and hands the classic socket to `callback_->connectionReady`. -/
def handshakeSuc (st : HelperState) (now : Int) : HelperState × List Act :=
  match st.sslSocket with
  | none => (st, [])
  | some s =>
    let tinfo1 := { st.tinfo with
        acceptTime := some st.acceptTime
        sslSetupTime := some (now - st.acceptTime) }
    let tinfo2 := fillSSLTransportInfoFields s tinfo1
    ({ st with tinfo := tinfo2, sslSocket := none },
     [Act.connectionReady s.appProtocol SecureTransportType_TLS NO_ERROR])

/-- `FizzAcceptorHandshakeHelper::handshakeErr`: builds an `SSLException` from
`(sslError_, now − acceptTime_, sock->getRawBytesReceived())` and hands it to
`callback_->connectionError` together with the raw classic-socket pointer. -/
def handshakeErr (st : HelperState) (now : Int) : HelperState × List Act :=
  match st.sslSocket with
  | none => (st, [])
  | some s =>
    let elapsed := now - st.acceptTime
    let ex := HandshakeException.sslException st.sslError elapsed s.getRawBytesReceived
    (st, [Act.connectionError ex st.sslError])

/-! ### Whole-session runs

The external engines' contract (spec §4.3): each started engine produces
exactly one terminal notification, plus, for the modern engine only, at most
one non-terminal fallback notification preceding it.  `EngineOutcome`
enumerates the resulting session shapes; the engine-determined observables
(application protocol, byte counters, SNI, negotiated extension parameter,
notification instants) are the engine's mutation of its transport, applied to
the helper state just before the corresponding handler runs. -/

/-- The observables the fizz engine has produced by the time it notifies the
helper of a terminal outcome. -/
structure FizzResult where
  appProtocol : String
  rawBytesReceived : Nat
  rawBytesWritten : Nat
  clientSni : Option String
  negotiatedKeyParam : Option Nat
deriving Repr, DecidableEq

/-- The classic engine's terminal notification after a fallback:
success or failure, with the bytes it newly read from the wire and the
instant of the notification. -/
inductive ClassicOutcome where
  | success (appProtocol : String) (newBytesReceived : Nat) (now : Int)
  | failure (newBytesReceived : Nat) (now : Int)
deriving Repr, DecidableEq

/-- The session shapes permitted by the engine contract. -/
inductive EngineOutcome where
  | fizzSuccess (r : FizzResult) (now : Int)
  | fizzError (r : FizzResult) (now : Int)
  | fizzFallback (clientHello : List Nat) (co : ClassicOutcome)
deriving Repr, DecidableEq

/-- Apply the fizz engine's handshake observables to the helper state (the
engine mutates the very transport `transport_` points at, and fills the
extension's negotiated key parameter). -/
def applyFizzResult (st : HelperState) (r : FizzResult) : HelperState :=
  match st.transport with
  | none => st
  | some t =>
    { st with
      transport := some { t with
        appProtocol := r.appProtocol
        rawBytesReceived := r.rawBytesReceived
        rawBytesWritten := r.rawBytesWritten
        clientSni := r.clientSni }
      extensionNegotiatedKeyParam :=
        st.extensionNegotiatedKeyParam.map (fun _ => r.negotiatedKeyParam) }

/-- Apply the classic engine's handshake observables to the helper state (the
engine mutates the very socket `sslSocket_` points at). -/
def applyClassicResult (st : HelperState) (appProto : String) (newBytes : Nat) :
    HelperState :=
  match st.sslSocket with
  | none => st
  | some s =>
    { st with sslSocket := some { s with
        appProtocol := appProto, newBytesReceived := newBytes } }

/-- Run the classic engine's terminal notification. -/
def runClassic (st : HelperState) (co : ClassicOutcome) : HelperState × List Act :=
  match co with
  | .success appProto newBytes now => handshakeSuc (applyClassicResult st appProto newBytes) now
  | .failure newBytes now => handshakeErr (applyClassicResult st "" newBytes) now

/-- Run one session from the state just after `start`, under a given engine
outcome, collecting the handlers' actions in order. -/
def runSession (st : HelperState) (o : EngineOutcome) : HelperState × List Act :=
  match o with
  | .fizzSuccess r now => fizzHandshakeSuccess (applyFizzResult st r) now
  | .fizzError r now => fizzHandshakeError (applyFizzResult st r) now
  | .fizzFallback clientHello co =>
    let p := fizzHandshakeAttemptFallback st clientHello
    let q := runClassic p.1 co
    (q.1, p.2 ++ q.2)

/-- Run one full session: `start` on the accepted socket, then the engine
outcome. -/
def runFromStart (st0 : HelperState) (sock : AcceptedSocket) (o : EngineOutcome) :
    HelperState × List Act :=
  let p := start st0 sock
  let q := runSession p.1 o
  (q.1, p.2 ++ q.2)

/-- Completion-callback invocations (`connectionReady` / `connectionError`). -/
def isCompletion : Act → Bool
  | .connectionReady _ _ _ => true
  | .connectionError _ _ => true
  | _ => false

/-- Logging-observer notifications. -/
def isLogAction : Act → Bool
  | .logFizzHandshakeSuccess => true
  | .logFizzHandshakeError => true
  | _ => false

/-- Classic-SSL-socket constructions. -/
def isCreatedSSLSocket : Act → Bool
  | .createdSSLSocket _ _ _ => true
  | _ => false

/-- The last action of the list is a completion-callback invocation. -/
def lastIsCompletion (l : List Act) : Bool :=
  (l.getLast?.map isCompletion).getD false

/-- Successive owners of the raw descriptor during the fallback transition,
with the descriptor value each holds: the modern engine before
`detachNetworkSocket`, the orchestrator between detach and
`createSSLSocket`, the classic engine afterwards.  Each instant has exactly
one owner. -/
inductive FdOwner where
  | modernEngine
  | orchestrator
  | classicEngine
deriving Repr, DecidableEq

/-- The descriptor ownership trace of the fallback transition. -/
def fallbackFdTrace (st : HelperState) : List (FdOwner × Fd) :=
  match st.transport with
  | none => []
  | some t =>
    [(FdOwner.modernEngine, t.fd), (FdOwner.orchestrator, t.fd),
     (FdOwner.classicEngine, t.fd)]

/-! ### Action-shape lemmas -/

theorem fizzHandshakeSuccess_snd (st : HelperState) (t : FizzTransport) (now : Int)
    (ht : st.transport = some t) :
    (fizzHandshakeSuccess st now).2 =
      (if st.loggingCallback then [Act.logFizzHandshakeSuccess] else []) ++
      [Act.connectionReady t.appProtocol SecureTransportType_TLS NO_ERROR] := by
  unfold fizzHandshakeSuccess
  rw [ht]

theorem fizzHandshakeError_snd (st : HelperState) (t : FizzTransport) (now : Int)
    (ht : st.transport = some t) :
    (fizzHandshakeError st now).2 =
      (if st.loggingCallback then [Act.logFizzHandshakeError] else []) ++
      [Act.connectionError
        (HandshakeException.fizzHandshakeException st.sslError (now - st.acceptTime)
          t.rawBytesReceived) st.sslError] := by
  unfold fizzHandshakeError
  rw [ht]

theorem fizzHandshakeError_fst (st : HelperState) (t : FizzTransport) (now : Int)
    (ht : st.transport = some t) :
    (fizzHandshakeError st now).1 = st := by
  unfold fizzHandshakeError
  rw [ht]

theorem fizzHandshakeAttemptFallback_eq (st : HelperState) (t : FizzTransport)
    (ch : List Nat) (ht : st.transport = some t) :
    fizzHandshakeAttemptFallback st ch =
      ({ st with
          transport := none
          sslSocket := some
            { sslContext := st.sslContext, evb := t.evb, fd := t.fd
              preReceivedData := ch, clientHelloParsing := true
              cacheAddrOnFailure := true, appProtocol := ""
              newBytesReceived := 0, rawBytesWritten := 0 } },
       [Act.detachNetworkSocket t.fd, Act.createdSSLSocket st.sslContext t.evb t.fd,
        Act.setPreReceivedData ch, Act.enableClientHelloParsing,
        Act.forceCacheAddrOnFailure true, Act.sslAccept]) := by
  unfold fizzHandshakeAttemptFallback createSSLSocket
  rw [ht]

theorem handshakeSuc_eq (st : HelperState) (s : SSLSocket) (now : Int)
    (hs : st.sslSocket = some s) :
    handshakeSuc st now =
      ({ st with
          tinfo := { st.tinfo with
            acceptTime := some st.acceptTime
            sslSetupTime := some (now - st.acceptTime)
            secure := true
            securityType := some classicSecurityProtocol }
          sslSocket := none },
       [Act.connectionReady s.appProtocol SecureTransportType_TLS NO_ERROR]) := by
  unfold handshakeSuc fillSSLTransportInfoFields SSLSocket.getSecurityProtocol
  rw [hs]

theorem handshakeErr_eq (st : HelperState) (s : SSLSocket) (now : Int)
    (hs : st.sslSocket = some s) :
    handshakeErr st now =
      (st, [Act.connectionError
        (HandshakeException.sslException st.sslError (now - st.acceptTime)
          (s.preReceivedData.length + s.newBytesReceived)) st.sslError]) := by
  unfold handshakeErr SSLSocket.getRawBytesReceived
  rw [hs]

theorem applyFizzResult_transport (st : HelperState) (t : FizzTransport) (r : FizzResult)
    (ht : st.transport = some t) :
    (applyFizzResult st r).transport = some
      { evb := t.evb, fd := t.fd, appProtocol := r.appProtocol
        rawBytesReceived := r.rawBytesReceived, rawBytesWritten := r.rawBytesWritten
        clientSni := r.clientSni } := by
  unfold applyFizzResult
  rw [ht]

theorem applyFizzResult_invariants (st : HelperState) (r : FizzResult) :
    (applyFizzResult st r).acceptTime = st.acceptTime ∧
    (applyFizzResult st r).loggingCallback = st.loggingCallback ∧
    (applyFizzResult st r).sslError = st.sslError ∧
    (applyFizzResult st r).sslSocket = st.sslSocket := by
  unfold applyFizzResult
  cases st.transport <;> simp

theorem applyClassicResult_sslSocket (st : HelperState) (s : SSLSocket)
    (appProto : String) (newBytes : Nat) (hs : st.sslSocket = some s) :
    (applyClassicResult st appProto newBytes).sslSocket = some
      { s with appProtocol := appProto, newBytesReceived := newBytes } := by
  unfold applyClassicResult
  rw [hs]

theorem applyClassicResult_invariants (st : HelperState) (appProto : String) (newBytes : Nat) :
    (applyClassicResult st appProto newBytes).acceptTime = st.acceptTime ∧
    (applyClassicResult st appProto newBytes).tinfo = st.tinfo ∧
    (applyClassicResult st appProto newBytes).sslError = st.sslError := by
  unfold applyClassicResult
  cases st.sslSocket <;> simp

theorem fizzHandshakeSuccess_fst_tinfo (st : HelperState) (t : FizzTransport) (now : Int)
    (ht : st.transport = some t) :
    (fizzHandshakeSuccess st now).1.tinfo.securityType = some fizzSecurityProtocol ∧
    (fizzHandshakeSuccess st now).1.tinfo.sslSetupTime = some (now - st.acceptTime) ∧
    (fizzHandshakeSuccess st now).1.tinfo.acceptTime = some st.acceptTime ∧
    (fizzHandshakeSuccess st now).1.tinfo.secure = true ∧
    (fizzHandshakeSuccess st now).1.acceptTime = st.acceptTime := by
  unfold fizzHandshakeSuccess
  rw [ht]
  rcases hE : st.extensionNegotiatedKeyParam with _ | (_ | p) <;>
    rcases hS : t.clientSni with _ | sni <;>
      simp [hE, hS, FizzTransport.getSecurityProtocol]

theorem fizzHandshakeSuccess_fst_transport (st : HelperState) (t : FizzTransport) (now : Int)
    (ht : st.transport = some t) :
    (fizzHandshakeSuccess st now).1.transport = none := by
  unfold fizzHandshakeSuccess
  rw [ht]

/-! ### Session-level lemmas -/

theorem start_fst (st : HelperState) (sock : AcceptedSocket) :
    (start st sock).1 =
      { st with
          callbackSet := true
          sslContext := some sock.sslContext
          extensionNegotiatedKeyParam :=
            if st.tokenBindingContext then some none else st.extensionNegotiatedKeyParam
          transport := some (createFizzServer sock) } := by
  unfold start
  by_cases h : st.tokenBindingContext <;> simp [h]

theorem runSession_fizzSuccess_snd (st : HelperState) (t : FizzTransport) (r : FizzResult)
    (now : Int) (ht : st.transport = some t) :
    (runSession st (EngineOutcome.fizzSuccess r now)).2 =
      (if st.loggingCallback then [Act.logFizzHandshakeSuccess] else []) ++
      [Act.connectionReady r.appProtocol SecureTransportType_TLS NO_ERROR] := by
  have h2 := applyFizzResult_transport st t r ht
  have h3 := (applyFizzResult_invariants st r).2.1
  simp only [runSession]
  rw [fizzHandshakeSuccess_snd _ _ now h2, h3]

theorem runSession_fizzError_snd (st : HelperState) (t : FizzTransport) (r : FizzResult)
    (now : Int) (ht : st.transport = some t) :
    (runSession st (EngineOutcome.fizzError r now)).2 =
      (if st.loggingCallback then [Act.logFizzHandshakeError] else []) ++
      [Act.connectionError
        (HandshakeException.fizzHandshakeException st.sslError (now - st.acceptTime)
          r.rawBytesReceived) st.sslError] := by
  have h2 := applyFizzResult_transport st t r ht
  have hI := applyFizzResult_invariants st r
  simp only [runSession]
  rw [fizzHandshakeError_snd _ _ now h2, hI.2.1, hI.1, hI.2.2.1]

theorem runSession_fallbackSuccess_snd (st : HelperState) (t : FizzTransport)
    (ch : List Nat) (ap : String) (nb : Nat) (now : Int) (ht : st.transport = some t) :
    (runSession st (EngineOutcome.fizzFallback ch (ClassicOutcome.success ap nb now))).2 =
      [Act.detachNetworkSocket t.fd, Act.createdSSLSocket st.sslContext t.evb t.fd,
       Act.setPreReceivedData ch, Act.enableClientHelloParsing,
       Act.forceCacheAddrOnFailure true, Act.sslAccept,
       Act.connectionReady ap SecureTransportType_TLS NO_ERROR] := by
  simp [runSession, runClassic, applyClassicResult, handshakeSuc, fillSSLTransportInfoFields,
        SSLSocket.getSecurityProtocol, fizzHandshakeAttemptFallback_eq st t ch ht]

theorem runSession_fallbackFailure_snd (st : HelperState) (t : FizzTransport)
    (ch : List Nat) (nb : Nat) (now : Int) (ht : st.transport = some t) :
    (runSession st (EngineOutcome.fizzFallback ch (ClassicOutcome.failure nb now))).2 =
      [Act.detachNetworkSocket t.fd, Act.createdSSLSocket st.sslContext t.evb t.fd,
       Act.setPreReceivedData ch, Act.enableClientHelloParsing,
       Act.forceCacheAddrOnFailure true, Act.sslAccept,
       Act.connectionError
         (HandshakeException.sslException st.sslError (now - st.acceptTime)
           (ch.length + nb)) st.sslError] := by
  simp [runSession, runClassic, applyClassicResult, handshakeErr, SSLSocket.getRawBytesReceived,
        fizzHandshakeAttemptFallback_eq st t ch ht]

theorem runSession_fallbackSuccess_tinfo (st : HelperState) (t : FizzTransport)
    (ch : List Nat) (ap : String) (nb : Nat) (now : Int) (ht : st.transport = some t) :
    (runSession st (EngineOutcome.fizzFallback ch (ClassicOutcome.success ap nb now))).1.tinfo.sslSetupTime
        = some (now - st.acceptTime) ∧
    (runSession st (EngineOutcome.fizzFallback ch (ClassicOutcome.success ap nb now))).1.tinfo.securityType
        = some classicSecurityProtocol ∧
    (runSession st (EngineOutcome.fizzFallback ch (ClassicOutcome.success ap nb now))).1.tinfo.acceptTime
        = some st.acceptTime ∧
    (runSession st (EngineOutcome.fizzFallback ch (ClassicOutcome.success ap nb now))).1.tinfo.secure
        = true := by
  simp [runSession, runClassic, applyClassicResult, handshakeSuc, fillSSLTransportInfoFields,
        SSLSocket.getSecurityProtocol, fizzHandshakeAttemptFallback_eq st t ch ht]

theorem runSession_countP_completion (st : HelperState) (t : FizzTransport)
    (o : EngineOutcome) (ht : st.transport = some t) :
    (runSession st o).2.countP isCompletion = 1 := by
  cases o with
  | fizzSuccess r now =>
    rw [runSession_fizzSuccess_snd st t r now ht]
    cases h : st.loggingCallback <;> simp [isCompletion]
  | fizzError r now =>
    rw [runSession_fizzError_snd st t r now ht]
    cases h : st.loggingCallback <;> simp [isCompletion]
  | fizzFallback ch co =>
    cases co with
    | success ap nb now =>
      rw [runSession_fallbackSuccess_snd st t ch ap nb now ht]
      simp [isCompletion]
    | failure nb now =>
      rw [runSession_fallbackFailure_snd st t ch nb now ht]
      simp [isCompletion]

theorem runSession_filter_completion_ignores_logging (st : HelperState) (t : FizzTransport)
    (o : EngineOutcome) (b : Bool) (ht : st.transport = some t) :
    (runSession { st with loggingCallback := b } o).2.filter isCompletion =
      (runSession st o).2.filter isCompletion := by
  have ht' : ({ st with loggingCallback := b } : HelperState).transport = some t := ht
  cases o with
  | fizzSuccess r now =>
    rw [runSession_fizzSuccess_snd _ t r now ht', runSession_fizzSuccess_snd st t r now ht]
    cases b <;> cases h : st.loggingCallback <;> simp [isCompletion]
  | fizzError r now =>
    rw [runSession_fizzError_snd _ t r now ht', runSession_fizzError_snd st t r now ht]
    cases b <;> cases h : st.loggingCallback <;> simp [isCompletion]
  | fizzFallback ch co =>
    cases co with
    | success ap nb now =>
      rw [runSession_fallbackSuccess_snd _ t ch ap nb now ht',
          runSession_fallbackSuccess_snd st t ch ap nb now ht]
    | failure nb now =>
      rw [runSession_fallbackFailure_snd _ t ch nb now ht',
          runSession_fallbackFailure_snd st t ch nb now ht]

/-! ### Concrete sample values -/

/-- A concrete fizz transport for concrete runs. -/
def sampleTransport : FizzTransport :=
  { evb := 1, fd := 7, appProtocol := "h2", rawBytesReceived := 42
    rawBytesWritten := 5, clientSni := some "example.com" }

/-- A concrete classic SSL socket for concrete runs. -/
def sampleSSLSocket : SSLSocket :=
  { sslContext := some 3, evb := 1, fd := 7, preReceivedData := [22, 3, 1]
    clientHelloParsing := true, cacheAddrOnFailure := true
    appProtocol := "http/1.1", newBytesReceived := 10, rawBytesWritten := 2 }

/-- A concrete helper state (logging observer set, both engines' handles
populated so every handler precondition can be discharged). -/
def sampleState : HelperState :=
  { callbackSet := true, loggingCallback := true, tokenBindingContext := false
    extensionNegotiatedKeyParam := none, sslContext := some 3
    transport := some sampleTransport, sslSocket := some sampleSSLSocket
    acceptTime := 100, tinfo := {}, sslError := 0 }

/-- A concrete accepted socket. -/
def sampleSocket : AcceptedSocket := { sslContext := 3, evb := 1, fd := 7 }

/-- A concrete fizz-engine result. -/
def sampleResult : FizzResult :=
  { appProtocol := "h2", rawBytesReceived := 42, rawBytesWritten := 5
    clientSni := some "example.com", negotiatedKeyParam := some 2 }

/-- Modelled from the spec: the classified error types `FizzHandshakeException`
and `SSLException` are declared in wangle headers that are not under `src/`;
per the spec the classified error carries "a human-readable cause", which the
exception synthesizes from its classification fields (phase, sslError, elapsed
time, bytes received) in its message. -/
def HandshakeException.what : HandshakeException → String
  | .fizzHandshakeException e ms br =>
      "Fizz handshake error: sslError " ++ toString e ++ " after " ++ toString ms ++
        " ms with " ++ toString br ++ " bytes received"
  | .sslException e ms br =>
      "SSL error: sslError " ++ toString e ++ " after " ++ toString ms ++
        " ms with " ++ toString br ++ " bytes received"

theorem HandshakeException.what_ne_empty (e : HandshakeException) : e.what ≠ "" := by
  cases e <;>
    · intro h
      have h2 := congrArg String.length h
      simp [HandshakeException.what, String.length_append] at h2
      exact absurd h2.2 (by decide)

/-- The logging observer's behavior: whether its success/error notification
fails internally.  `logFizzHandshakeSuccess` / `logFizzHandshakeError` are
void calls: the helper has no channel from the observer back into the
negotiation, and observer-side errors are swallowed on the observer side
(spec section 7), so a behavior is just which notifications fail. -/
structure ObserverBehavior where
  failsOnSuccess : Bool
  failsOnError : Bool
deriving Repr, DecidableEq

/-- Annotate a handler trace with whether each observer notification succeeds
under the given observer behavior (non-observer actions are marked true). -/
def annotateObserver (l : List Act) (ob : ObserverBehavior) : List (Act × Bool) :=
  l.map (fun a =>
    match a with
    | Act.logFizzHandshakeSuccess => (a, !ob.failsOnSuccess)
    | Act.logFizzHandshakeError => (a, !ob.failsOnError)
    | _ => (a, true))

/-- The completion-callback invocations of an observer-annotated trace. -/
def completionsUnderObserver (l : List Act) (ob : ObserverBehavior) :
    List (Act × Bool) :=
  (annotateObserver l ob).filter (fun p => isCompletion p.1)

theorem completionsUnderObserver_eq (l : List Act) (ob : ObserverBehavior) :
    completionsUnderObserver l ob =
      (l.filter isCompletion).map (fun a => (a, true)) := by
  unfold completionsUnderObserver annotateObserver
  induction l with
  | nil => rfl
  | cons a l ih =>
    cases a <;> simp only [List.map_cons, List.filter_cons] <;>
      simp [isCompletion] <;> exact ih

/-! ### Claims -/

/-- C1: every orchestrator session reaching a terminal outcome invokes exactly
one of the completion callback's connectionReady/connectionError methods,
exactly once: each of the four terminal handlers (fizzHandshakeSuccess,
fizzHandshakeError, handshakeSuc, handshakeErr) emits exactly one completion
invocation with no further orchestrator action after it, and a full run from
start under any engine outcome permitted by the engine contract emits exactly
one completion in total. -/
theorem completion_fires_exactly_once
    (st : HelperState) (t : FizzTransport) (s : SSLSocket) (now : Int)
    (st0 : HelperState) (sock : AcceptedSocket) (o : EngineOutcome)
    (ht : st.transport = some t) (hs : st.sslSocket = some s) :
    ((fizzHandshakeSuccess st now).2.countP isCompletion = 1 ∧
      lastIsCompletion (fizzHandshakeSuccess st now).2 = true) ∧
    ((fizzHandshakeError st now).2.countP isCompletion = 1 ∧
      lastIsCompletion (fizzHandshakeError st now).2 = true) ∧
    ((handshakeSuc st now).2.countP isCompletion = 1 ∧
      lastIsCompletion (handshakeSuc st now).2 = true) ∧
    ((handshakeErr st now).2.countP isCompletion = 1 ∧
      lastIsCompletion (handshakeErr st now).2 = true) ∧
    (runFromStart st0 sock o).2.countP isCompletion = 1 := by
  refine ⟨⟨?_, ?_⟩, ⟨?_, ?_⟩, ⟨?_, ?_⟩, ⟨?_, ?_⟩, ?_⟩
  · rw [fizzHandshakeSuccess_snd st t now ht]
    cases h : st.loggingCallback <;> simp [isCompletion]
  · rw [fizzHandshakeSuccess_snd st t now ht]
    cases h : st.loggingCallback <;> simp [lastIsCompletion, isCompletion]
  · rw [fizzHandshakeError_snd st t now ht]
    cases h : st.loggingCallback <;> simp [isCompletion]
  · rw [fizzHandshakeError_snd st t now ht]
    cases h : st.loggingCallback <;> simp [lastIsCompletion, isCompletion]
  · rw [handshakeSuc_eq st s now hs]
    simp [isCompletion]
  · rw [handshakeSuc_eq st s now hs]
    simp [lastIsCompletion, isCompletion]
  · rw [handshakeErr_eq st s now hs]
    simp [isCompletion]
  · rw [handshakeErr_eq st s now hs]
    simp [lastIsCompletion, isCompletion]
  · have hT : (start st0 sock).1.transport = some (createFizzServer sock) := by
      rw [start_fst]
    show ((start st0 sock).2 ++ (runSession (start st0 sock).1 o).2).countP isCompletion = 1
    rw [List.countP_append, runSession_countP_completion _ _ o hT]
    simp [start, isCompletion]

/-- C1 witness: the exactly-once property at a concrete state and session. -/
theorem completion_fires_exactly_once_witness :
    sampleState.transport = some sampleTransport ∧
    sampleState.sslSocket = some sampleSSLSocket ∧
    (((fizzHandshakeSuccess sampleState 150).2.countP isCompletion = 1 ∧
       lastIsCompletion (fizzHandshakeSuccess sampleState 150).2 = true) ∧
     ((fizzHandshakeError sampleState 150).2.countP isCompletion = 1 ∧
       lastIsCompletion (fizzHandshakeError sampleState 150).2 = true) ∧
     ((handshakeSuc sampleState 150).2.countP isCompletion = 1 ∧
       lastIsCompletion (handshakeSuc sampleState 150).2 = true) ∧
     ((handshakeErr sampleState 150).2.countP isCompletion = 1 ∧
       lastIsCompletion (handshakeErr sampleState 150).2 = true) ∧
     (runFromStart sampleState sampleSocket
        (EngineOutcome.fizzSuccess sampleResult 150)).2.countP isCompletion = 1) :=
  ⟨rfl, rfl,
   completion_fires_exactly_once sampleState sampleTransport sampleSSLSocket 150
     sampleState sampleSocket (EngineOutcome.fizzSuccess sampleResult 150) rfl rfl⟩

/-- C2: on every fallback transition the byte sequence installed in the
classic engine as pre-received data equals the buffered client hello
byte-for-byte and in order (no loss, duplication or reordering), and it is
installed (setPreReceivedData) strictly before the classic handshake
(sslAccept) starts. -/
theorem fallback_replays_buffered_bytes
    (st : HelperState) (t : FizzTransport) (ch : List Nat)
    (ht : st.transport = some t) :
    (∃ s, (fizzHandshakeAttemptFallback st ch).1.sslSocket = some s ∧
      s.preReceivedData = ch) ∧
    ∃ i j : Nat, i < j ∧
      (fizzHandshakeAttemptFallback st ch).2[i]? = some (Act.setPreReceivedData ch) ∧
      (fizzHandshakeAttemptFallback st ch).2[j]? = some Act.sslAccept := by
  rw [fizzHandshakeAttemptFallback_eq st t ch ht]
  exact ⟨⟨_, rfl, rfl⟩, 2, 5, by omega, rfl, rfl⟩

/-- C2 witness: the fallback byte-replay property at a concrete state with the
classic-greeting bytes 0x16 0x03 0x01. -/
theorem fallback_replays_buffered_bytes_witness :
    sampleState.transport = some sampleTransport ∧
    ((∃ s, (fizzHandshakeAttemptFallback sampleState [22, 3, 1]).1.sslSocket = some s ∧
        s.preReceivedData = [22, 3, 1]) ∧
     ∃ i j : Nat, i < j ∧
       (fizzHandshakeAttemptFallback sampleState [22, 3, 1]).2[i]? =
         some (Act.setPreReceivedData [22, 3, 1]) ∧
       (fizzHandshakeAttemptFallback sampleState [22, 3, 1]).2[j]? = some Act.sslAccept) :=
  ⟨rfl, fallback_replays_buffered_bytes sampleState sampleTransport [22, 3, 1] rfl⟩

/-- C3: on every fallback transition the descriptor value the classic engine
is constructed with equals the descriptor the modern engine was using; the
modern transport is released (transport_ reset to empty), and along the
handoff each instant has exactly one owner, every instant holding the same
descriptor value. -/
theorem fallback_preserves_descriptor
    (st : HelperState) (t : FizzTransport) (ch : List Nat)
    (ht : st.transport = some t) :
    (∃ s, (fizzHandshakeAttemptFallback st ch).1.sslSocket = some s ∧ s.fd = t.fd) ∧
    (fizzHandshakeAttemptFallback st ch).1.transport = none ∧
    fallbackFdTrace st =
      [(FdOwner.modernEngine, t.fd), (FdOwner.orchestrator, t.fd),
       (FdOwner.classicEngine, t.fd)] ∧
    (∀ p ∈ fallbackFdTrace st, p.2 = t.fd) := by
  have h3 : fallbackFdTrace st =
      [(FdOwner.modernEngine, t.fd), (FdOwner.orchestrator, t.fd),
       (FdOwner.classicEngine, t.fd)] := by
    unfold fallbackFdTrace
    rw [ht]
  rw [fizzHandshakeAttemptFallback_eq st t ch ht]
  refine ⟨⟨_, rfl, rfl⟩, rfl, h3, ?_⟩
  simp [h3]

/-- C3 witness: the descriptor-handoff property at a concrete state. -/
theorem fallback_preserves_descriptor_witness :
    sampleState.transport = some sampleTransport ∧
    ((∃ s, (fizzHandshakeAttemptFallback sampleState [22, 3, 1]).1.sslSocket = some s ∧
        s.fd = sampleTransport.fd) ∧
     (fizzHandshakeAttemptFallback sampleState [22, 3, 1]).1.transport = none ∧
     fallbackFdTrace sampleState =
       [(FdOwner.modernEngine, sampleTransport.fd), (FdOwner.orchestrator, sampleTransport.fd),
        (FdOwner.classicEngine, sampleTransport.fd)] ∧
     (∀ p ∈ fallbackFdTrace sampleState, p.2 = sampleTransport.fd)) :=
  ⟨rfl, fallback_preserves_descriptor sampleState sampleTransport [22, 3, 1] rfl⟩

/-- C4: on every terminal success (modern or classic) the recorded
sslSetupTime equals the elapsed time from the original accept instant
(acceptTime_) to the terminal outcome and is non-negative (the monotonic
clock never reads before the accept instant); on success after fallback it is
still computed from the original accept time, which the fallback transition
leaves untouched. -/
theorem ssl_setup_time_from_original_accept
    (st : HelperState) (t : FizzTransport) (r : FizzResult) (ch : List Nat)
    (ap : String) (nb : Nat) (nowM nowC : Int)
    (ht : st.transport = some t)
    (hM : st.acceptTime ≤ nowM) (hC : st.acceptTime ≤ nowC) :
    ((runSession st (EngineOutcome.fizzSuccess r nowM)).1.tinfo.sslSetupTime
        = some (nowM - st.acceptTime) ∧
      0 ≤ nowM - st.acceptTime) ∧
    ((runSession st (EngineOutcome.fizzFallback ch
          (ClassicOutcome.success ap nb nowC))).1.tinfo.sslSetupTime
        = some (nowC - st.acceptTime) ∧
      0 ≤ nowC - st.acceptTime) ∧
    (runSession st (EngineOutcome.fizzFallback ch
        (ClassicOutcome.success ap nb nowC))).1.tinfo.acceptTime
      = some st.acceptTime := by
  have h2 := applyFizzResult_transport st t r ht
  have hA := (applyFizzResult_invariants st r).1
  have hF := fizzHandshakeSuccess_fst_tinfo (applyFizzResult st r) _ nowM h2
  have hB := runSession_fallbackSuccess_tinfo st t ch ap nb nowC ht
  refine ⟨⟨?_, by omega⟩, ⟨hB.1, by omega⟩, hB.2.2.1⟩
  show (fizzHandshakeSuccess (applyFizzResult st r) nowM).1.tinfo.sslSetupTime = _
  rw [hF.2.1, hA]

/-- C4 witness: setup-time accounting at a concrete state, with the modern
success at instant 150 and the post-fallback classic success at instant 300,
both measured from the accept instant 100. -/
theorem ssl_setup_time_from_original_accept_witness :
    sampleState.transport = some sampleTransport ∧
    sampleState.acceptTime ≤ 150 ∧ sampleState.acceptTime ≤ 300 ∧
    (((runSession sampleState (EngineOutcome.fizzSuccess sampleResult 150)).1.tinfo.sslSetupTime
        = some (150 - sampleState.acceptTime) ∧
      0 ≤ 150 - sampleState.acceptTime) ∧
     ((runSession sampleState (EngineOutcome.fizzFallback [22, 3, 1]
          (ClassicOutcome.success "http/1.1" 10 300))).1.tinfo.sslSetupTime
        = some (300 - sampleState.acceptTime) ∧
      0 ≤ 300 - sampleState.acceptTime) ∧
     (runSession sampleState (EngineOutcome.fizzFallback [22, 3, 1]
         (ClassicOutcome.success "http/1.1" 10 300))).1.tinfo.acceptTime
       = some sampleState.acceptTime) :=
  ⟨rfl, by decide, by decide,
   ssl_setup_time_from_original_accept sampleState sampleTransport sampleResult
     [22, 3, 1] "http/1.1" 10 150 300 rfl (by decide) (by decide)⟩

/-- C5: the securityType recorded on terminal success matches the engine that
completed the handshake: the modern path records the fizz transport's
security protocol, the classic path after fallback records the classic TLS
protocol, and the two are distinct, so it is never the other. -/
theorem security_type_matches_completing_engine
    (st : HelperState) (t : FizzTransport) (r : FizzResult) (ch : List Nat)
    (ap : String) (nb : Nat) (nowM nowC : Int)
    (ht : st.transport = some t) :
    (runSession st (EngineOutcome.fizzSuccess r nowM)).1.tinfo.securityType
        = some fizzSecurityProtocol ∧
    (runSession st (EngineOutcome.fizzFallback ch
        (ClassicOutcome.success ap nb nowC))).1.tinfo.securityType
      = some classicSecurityProtocol ∧
    fizzSecurityProtocol ≠ classicSecurityProtocol := by
  have h2 := applyFizzResult_transport st t r ht
  have hF := fizzHandshakeSuccess_fst_tinfo (applyFizzResult st r) _ nowM h2
  have hB := runSession_fallbackSuccess_tinfo st t ch ap nb nowC ht
  exact ⟨hF.1, hB.2.1, by simp [fizzSecurityProtocol, classicSecurityProtocol]⟩

/-- C5 witness: securityType accounting at a concrete state on both success
paths. -/
theorem security_type_matches_completing_engine_witness :
    sampleState.transport = some sampleTransport ∧
    ((runSession sampleState (EngineOutcome.fizzSuccess sampleResult 150)).1.tinfo.securityType
        = some fizzSecurityProtocol ∧
     (runSession sampleState (EngineOutcome.fizzFallback [22, 3, 1]
         (ClassicOutcome.success "http/1.1" 10 300))).1.tinfo.securityType
       = some classicSecurityProtocol ∧
     fizzSecurityProtocol ≠ classicSecurityProtocol) :=
  ⟨rfl, security_type_matches_completing_engine sampleState sampleTransport sampleResult
    [22, 3, 1] "http/1.1" 10 150 300 rfl⟩

/-- C6 counterexample: the classified error handed to connectionError does
NOT carry the bytes-sent count, contrary to the claim: two modern-path error
runs identical except for the transport's rawBytesWritten (5 versus 999)
produce identical action traces — in particular identical connectionError
invocations — and likewise two classic-path error runs with different socket
rawBytesWritten (2 versus 888), so the classified error cannot carry the
bytes-sent value; bytes sent appear only in the VLOG debug statement. -/
theorem connection_error_lacks_bytes_sent :
    ((fizzHandshakeError
        { sampleState with
            transport := some { sampleTransport with rawBytesWritten := 5 } } 150).2 =
      (fizzHandshakeError
        { sampleState with
            transport := some { sampleTransport with rawBytesWritten := 999 } } 150).2) ∧
    ((handshakeErr
        { sampleState with
            sslSocket := some { sampleSSLSocket with rawBytesWritten := 2 } } 150).2 =
      (handshakeErr
        { sampleState with
            sslSocket := some { sampleSSLSocket with rawBytesWritten := 888 } } 150).2) ∧
    (5 : Nat) ≠ 999 ∧ (2 : Nat) ≠ 888 :=
  ⟨rfl, rfl, by decide, by decide⟩

/-- C6 amended: every terminal failure invokes connectionError with a
classified error carrying the originating phase (a FizzHandshakeException for
the modern engine, an SSLException for the classic engine), the elapsed time
measured from the original accept instant, the bytes received so far, and a
cause description (the non-empty human-readable message the exception
synthesizes from its classification); the bytes-sent count appears only in
the debug log, not in the classified error; for a classic-engine failure
after fallback the reported bytes-received count is the buffered bytes
consumed during the aborted modern attempt plus the bytes newly consumed by
the classic engine. -/
theorem connection_error_classification
    (st : HelperState) (t : FizzTransport) (r : FizzResult) (ch : List Nat)
    (nb : Nat) (nowM nowC : Int) (ht : st.transport = some t) :
    ((runSession st (EngineOutcome.fizzError r nowM)).2.filter isCompletion =
      [Act.connectionError (HandshakeException.fizzHandshakeException st.sslError
        (nowM - st.acceptTime) r.rawBytesReceived) st.sslError] ∧
     (HandshakeException.fizzHandshakeException st.sslError
        (nowM - st.acceptTime) r.rawBytesReceived).what ≠ "") ∧
    ((runSession st (EngineOutcome.fizzFallback ch
        (ClassicOutcome.failure nb nowC))).2.filter isCompletion =
      [Act.connectionError (HandshakeException.sslException st.sslError
        (nowC - st.acceptTime) (ch.length + nb)) st.sslError] ∧
     (HandshakeException.sslException st.sslError
        (nowC - st.acceptTime) (ch.length + nb)).what ≠ "") := by
  refine ⟨⟨?_, HandshakeException.what_ne_empty _⟩,
          ⟨?_, HandshakeException.what_ne_empty _⟩⟩
  · rw [runSession_fizzError_snd st t r nowM ht]
    cases h : st.loggingCallback <;> simp [isCompletion]
  · rw [runSession_fallbackFailure_snd st t ch nb nowC ht]
    simp [isCompletion]

/-- C6 witness: the amended error classification at a concrete state: the
modern failure at instant 150 reports 42 bytes received; the classic failure
after a 3-byte fallback with 4 newly read bytes at instant 160 reports
3 + 4 = 7 bytes received; both classified errors carry a non-empty cause
description. -/
theorem connection_error_classification_witness :
    sampleState.transport = some sampleTransport ∧
    (((runSession sampleState (EngineOutcome.fizzError sampleResult 150)).2.filter isCompletion =
       [Act.connectionError (HandshakeException.fizzHandshakeException sampleState.sslError
         (150 - sampleState.acceptTime) sampleResult.rawBytesReceived) sampleState.sslError] ∧
      (HandshakeException.fizzHandshakeException sampleState.sslError
         (150 - sampleState.acceptTime) sampleResult.rawBytesReceived).what ≠ "") ∧
     ((runSession sampleState (EngineOutcome.fizzFallback [22, 3, 1]
          (ClassicOutcome.failure 4 160))).2.filter isCompletion =
       [Act.connectionError (HandshakeException.sslException sampleState.sslError
         (160 - sampleState.acceptTime) ([22, 3, 1].length + 4)) sampleState.sslError] ∧
      (HandshakeException.sslException sampleState.sslError
         (160 - sampleState.acceptTime) ([22, 3, 1].length + 4)).what ≠ "")) :=
  ⟨rfl, connection_error_classification sampleState sampleTransport sampleResult
    [22, 3, 1] 4 150 160 rfl⟩

/-- C7 counterexample: on the classic path the logging observer is never
notified, contrary to the claim that every terminal outcome on either path
notifies it: a concrete fallback session whose classic handshake fails, run
with the logging observer set, reaches its terminal outcome with no observer
notification anywhere in its trace (and the same holds for classic success). -/
theorem classic_path_skips_logging_observer :
    sampleState.loggingCallback = true ∧
    (runSession sampleState (EngineOutcome.fizzFallback [22, 3, 1]
        (ClassicOutcome.failure 4 160))).2.all (fun a => !(isLogAction a)) = true ∧
    (runSession sampleState (EngineOutcome.fizzFallback [22, 3, 1]
        (ClassicOutcome.success "http/1.1" 10 300))).2.all (fun a => !(isLogAction a)) = true ∧
    (runSession sampleState (EngineOutcome.fizzFallback [22, 3, 1]
        (ClassicOutcome.failure 4 160))).2.countP isCompletion = 1 :=
  ⟨rfl, by decide, by decide, by decide⟩

/-- C7 amended: on modern-path terminal outcomes the logging observer, when
set, is notified first, before the completion callback fires (which comes
last); classic-path terminal outcomes do not notify the observer at all; and
the observer's absence or failure never changes which completion method is
invoked or its arguments: the completion actions are invariant both under
toggling the observer's presence and under every observer behavior
(the notifications are void calls with no channel back into the helper). -/
theorem logging_observer_best_effort
    (st : HelperState) (t : FizzTransport) (now : Int) (o : EngineOutcome) (b : Bool)
    (ht : st.transport = some t) (hl : st.loggingCallback = true) :
    ((fizzHandshakeSuccess st now).2.head? = some Act.logFizzHandshakeSuccess ∧
      lastIsCompletion (fizzHandshakeSuccess st now).2 = true) ∧
    ((fizzHandshakeError st now).2.head? = some Act.logFizzHandshakeError ∧
      lastIsCompletion (fizzHandshakeError st now).2 = true) ∧
    (∀ ch co, (runSession st (EngineOutcome.fizzFallback ch co)).2.all
        (fun a => !(isLogAction a)) = true) ∧
    ((runSession { st with loggingCallback := b } o).2.filter isCompletion =
      (runSession st o).2.filter isCompletion) ∧
    (∀ ob ob' : ObserverBehavior,
      completionsUnderObserver (runSession st o).2 ob =
        completionsUnderObserver (runSession st o).2 ob') := by
  refine ⟨⟨?_, ?_⟩, ⟨?_, ?_⟩, ?_, ?_, ?_⟩
  · rw [fizzHandshakeSuccess_snd st t now ht, hl]
    rfl
  · rw [fizzHandshakeSuccess_snd st t now ht, hl]
    simp [lastIsCompletion, isCompletion]
  · rw [fizzHandshakeError_snd st t now ht, hl]
    rfl
  · rw [fizzHandshakeError_snd st t now ht, hl]
    simp [lastIsCompletion, isCompletion]
  · intro ch co
    cases co with
    | success ap nb nowC =>
      rw [runSession_fallbackSuccess_snd st t ch ap nb nowC ht]
      simp [isLogAction]
    | failure nb nowC =>
      rw [runSession_fallbackFailure_snd st t ch nb nowC ht]
      simp [isLogAction]
  · exact runSession_filter_completion_ignores_logging st t o b ht
  · intro ob ob'
    rw [completionsUnderObserver_eq, completionsUnderObserver_eq]

/-- C7 witness: the amended observer contract at a concrete state and a
concrete modern-success session, with the observer toggled off and under
arbitrary observer behaviors. -/
theorem logging_observer_best_effort_witness :
    sampleState.transport = some sampleTransport ∧
    sampleState.loggingCallback = true ∧
    (((fizzHandshakeSuccess sampleState 150).2.head? = some Act.logFizzHandshakeSuccess ∧
       lastIsCompletion (fizzHandshakeSuccess sampleState 150).2 = true) ∧
     ((fizzHandshakeError sampleState 150).2.head? = some Act.logFizzHandshakeError ∧
       lastIsCompletion (fizzHandshakeError sampleState 150).2 = true) ∧
     (∀ ch co, (runSession sampleState (EngineOutcome.fizzFallback ch co)).2.all
         (fun a => !(isLogAction a)) = true) ∧
     ((runSession { sampleState with loggingCallback := false }
         (EngineOutcome.fizzSuccess sampleResult 150)).2.filter isCompletion =
       (runSession sampleState (EngineOutcome.fizzSuccess sampleResult 150)).2.filter
         isCompletion) ∧
     (∀ ob ob' : ObserverBehavior,
       completionsUnderObserver
           (runSession sampleState (EngineOutcome.fizzSuccess sampleResult 150)).2 ob =
         completionsUnderObserver
           (runSession sampleState (EngineOutcome.fizzSuccess sampleResult 150)).2 ob')) :=
  ⟨rfl, rfl, logging_observer_best_effort sampleState sampleTransport 150
    (EngineOutcome.fizzSuccess sampleResult 150) false rfl rfl⟩

/-- C8: when the modern engine reports an unrecoverable error the session
invokes connectionError with the modern-phase classification
(FizzHandshakeException) and no classic SSL socket is ever constructed in
that session: the trace contains no classic-socket construction and
sslSocket_ stays empty. -/
theorem modern_error_never_constructs_classic_engine
    (st : HelperState) (t : FizzTransport) (r : FizzResult) (now : Int)
    (ht : st.transport = some t) (hs : st.sslSocket = none) :
    (runSession st (EngineOutcome.fizzError r now)).2.filter isCompletion =
      [Act.connectionError (HandshakeException.fizzHandshakeException st.sslError
        (now - st.acceptTime) r.rawBytesReceived) st.sslError] ∧
    (runSession st (EngineOutcome.fizzError r now)).2.all
      (fun a => !(isCreatedSSLSocket a)) = true ∧
    (runSession st (EngineOutcome.fizzError r now)).1.sslSocket = none := by
  have h2 := applyFizzResult_transport st t r ht
  have hI := applyFizzResult_invariants st r
  refine ⟨?_, ?_, ?_⟩
  · rw [runSession_fizzError_snd st t r now ht]
    cases h : st.loggingCallback <;> simp [isCompletion]
  · rw [runSession_fizzError_snd st t r now ht]
    cases h : st.loggingCallback <;> simp [isCreatedSSLSocket]
  · show (fizzHandshakeError (applyFizzResult st r) now).1.sslSocket = none
    rw [fizzHandshakeError_fst _ _ now h2, hI.2.2.2, hs]

/-- C8 witness: a concrete modern-engine unrecoverable error at instant 150
on a just-started state (no classic socket yet). -/
theorem modern_error_never_constructs_classic_engine_witness :
    ({ sampleState with sslSocket := none } : HelperState).transport = some sampleTransport ∧
    ({ sampleState with sslSocket := none } : HelperState).sslSocket = none ∧
    ((runSession { sampleState with sslSocket := none }
        (EngineOutcome.fizzError sampleResult 150)).2.filter isCompletion =
      [Act.connectionError (HandshakeException.fizzHandshakeException
        ({ sampleState with sslSocket := none } : HelperState).sslError
        (150 - ({ sampleState with sslSocket := none } : HelperState).acceptTime)
        sampleResult.rawBytesReceived)
        ({ sampleState with sslSocket := none } : HelperState).sslError] ∧
     (runSession { sampleState with sslSocket := none }
        (EngineOutcome.fizzError sampleResult 150)).2.all
       (fun a => !(isCreatedSSLSocket a)) = true ∧
     (runSession { sampleState with sslSocket := none }
        (EngineOutcome.fizzError sampleResult 150)).1.sslSocket = none) :=
  ⟨rfl, rfl, modern_error_never_constructs_classic_engine
    { sampleState with sslSocket := none } sampleTransport sampleResult 150 rfl rfl⟩

/-- C9: in every handler that invokes the completion callback
(fizzHandshakeSuccess, fizzHandshakeError, handshakeSuc, handshakeErr) the
callback invocation is the last action the handler performs — nothing is
emitted after it — so the callback may destroy the orchestrator synchronously
without any subsequent use of freed state. -/
theorem completion_callback_is_last_action
    (st : HelperState) (t : FizzTransport) (s : SSLSocket) (now : Int)
    (ht : st.transport = some t) (hs : st.sslSocket = some s) :
    (fizzHandshakeSuccess st now).2.getLast? =
      some (Act.connectionReady t.appProtocol SecureTransportType_TLS NO_ERROR) ∧
    (fizzHandshakeError st now).2.getLast? =
      some (Act.connectionError (HandshakeException.fizzHandshakeException st.sslError
        (now - st.acceptTime) t.rawBytesReceived) st.sslError) ∧
    (handshakeSuc st now).2.getLast? =
      some (Act.connectionReady s.appProtocol SecureTransportType_TLS NO_ERROR) ∧
    (handshakeErr st now).2.getLast? =
      some (Act.connectionError (HandshakeException.sslException st.sslError
        (now - st.acceptTime) (s.preReceivedData.length + s.newBytesReceived))
        st.sslError) := by
  refine ⟨?_, ?_, ?_, ?_⟩
  · rw [fizzHandshakeSuccess_snd st t now ht]
    cases h : st.loggingCallback <;> simp
  · rw [fizzHandshakeError_snd st t now ht]
    cases h : st.loggingCallback <;> simp
  · rw [handshakeSuc_eq st s now hs]
    simp
  · rw [handshakeErr_eq st s now hs]
    simp

/-- C9 witness: the completion invocation is the last action of each handler
at a concrete state. -/
theorem completion_callback_is_last_action_witness :
    sampleState.transport = some sampleTransport ∧
    sampleState.sslSocket = some sampleSSLSocket ∧
    ((fizzHandshakeSuccess sampleState 150).2.getLast? =
      some (Act.connectionReady sampleTransport.appProtocol SecureTransportType_TLS NO_ERROR) ∧
     (fizzHandshakeError sampleState 150).2.getLast? =
      some (Act.connectionError (HandshakeException.fizzHandshakeException sampleState.sslError
        (150 - sampleState.acceptTime) sampleTransport.rawBytesReceived) sampleState.sslError) ∧
     (handshakeSuc sampleState 150).2.getLast? =
      some (Act.connectionReady sampleSSLSocket.appProtocol SecureTransportType_TLS NO_ERROR) ∧
     (handshakeErr sampleState 150).2.getLast? =
      some (Act.connectionError (HandshakeException.sslException sampleState.sslError
        (150 - sampleState.acceptTime)
        (sampleSSLSocket.preReceivedData.length + sampleSSLSocket.newBytesReceived))
        sampleState.sslError)) :=
  ⟨rfl, rfl, completion_callback_is_last_action sampleState sampleTransport sampleSSLSocket
    150 rfl rfl⟩

/-- C10: on every fallback transition the classic SSL socket is constructed
with the SSL context captured from the original accepted socket during
start() and on the same event base the modern transport was running on
(itself the accepted socket's event base), with the same descriptor: the
full session trace contains exactly one classic-socket construction, with
exactly those parameters. -/
theorem fallback_uses_captured_context_and_event_base
    (st0 : HelperState) (sock : AcceptedSocket) (ch : List Nat) (co : ClassicOutcome) :
    (runFromStart st0 sock (EngineOutcome.fizzFallback ch co)).2.filter isCreatedSSLSocket =
      [Act.createdSSLSocket (some sock.sslContext) sock.evb sock.fd] ∧
    (start st0 sock).1.transport = some (createFizzServer sock) ∧
    (createFizzServer sock).evb = sock.evb ∧
    (start st0 sock).1.sslContext = some sock.sslContext := by
  have hT : (start st0 sock).1.transport = some (createFizzServer sock) := by
    rw [start_fst]
  have hC : (start st0 sock).1.sslContext = some sock.sslContext := by
    rw [start_fst]
  refine ⟨?_, hT, rfl, hC⟩
  show ((start st0 sock).2 ++
      (runSession (start st0 sock).1 (EngineOutcome.fizzFallback ch co)).2).filter
        isCreatedSSLSocket = _
  cases co with
  | success ap nb now =>
    rw [runSession_fallbackSuccess_snd _ _ ch ap nb now hT, hC]
    simp [start, isCreatedSSLSocket, createFizzServer]
  | failure nb now =>
    rw [runSession_fallbackFailure_snd _ _ ch nb now hT, hC]
    simp [start, isCreatedSSLSocket, createFizzServer]
